import Mathlib

/-!
Verification of the FimPay client-side screen layer.

The repository is a React Native application. The screens modelled here:
* `src/app/(tabs)/ai.tsx` — the AI chat relay (transcript, send handler,
  clear-chat handler, HTTP response normalisation).
* `src/unnamed/part_000` — the verify-email screen (code sanitizer, verify
  handler, resend handler and its cooldown timer).
* `src/unnamed/part_001` — the sign-in screen (submit handler).
* `src/app/(tabs)/profile.tsx` — the profile screen (delete-account handler).

JavaScript strings are modelled as Lean `String`, `Date.now()` timestamps as
`Nat` milliseconds, and the effect of each handler as a pure function from its
inputs (component state plus the outcome of the one network call it awaits) to
the resulting state or emitted action.
-/

namespace FimPay

/-! ### JavaScript string primitives used by the screens -/

/-- JS whitespace characters relevant to `String.prototype.trim` for the
inputs these screens handle (space, tab, newline, carriage return). -/
def isJsWhitespace (c : Char) : Bool :=
  c == ' ' || c == '\t' || c == '\n' || c == '\r'

/-- Model of `String.prototype.trim`: strip whitespace from both ends. -/
def jsTrim (s : String) : String :=
  String.mk (((s.data.dropWhile isJsWhitespace).reverse.dropWhile isJsWhitespace).reverse)

/-- Does `pat` start `s`? Helper for the substring test. -/
def listStartsWith : List Char → List Char → Bool
  | [], _ => true
  | _ :: _, [] => false
  | p :: ps, c :: cs => p == c && listStartsWith ps cs

/-- Does `pat` occur inside `s`? Helper for the substring test. -/
def listContainsSeq (pat : List Char) : List Char → Bool
  | [] => pat.isEmpty
  | c :: cs => listStartsWith pat (c :: cs) || listContainsSeq pat cs

/-- Model of `String.prototype.includes`. -/
def jsIncludes (s pat : String) : Bool :=
  listContainsSeq pat.data s.data

/-- Decimal digits of `n`, least significant first; `fuel` bounds the
recursion (`decDigits` supplies `fuel = n`, which is always enough). -/
def decDigitsF : Nat → Nat → List Nat
  | 0, _ => []
  | fuel + 1, n => if n = 0 then [] else (n % 10) :: decDigitsF fuel (n / 10)

/-- Decimal digits of `n`, least significant first (empty for 0). -/
def decDigits (n : Nat) : List Nat := decDigitsF n n

/-- The character for one decimal digit. -/
def digitChar (d : Nat) : Char := Char.ofNat (48 + d)

/-- Model of JavaScript `Number.prototype.toString` (base 10) on the
non-negative integers produced by `Date.now()`. -/
def natToDecimal (n : Nat) : String :=
  if n = 0 then "0" else String.mk (((decDigits n).map digitChar).reverse)

/-- Numeric value of a little-endian decimal digit list. -/
def undecDigits : List Nat → Nat
  | [] => 0
  | d :: ds => d + 10 * undecDigits ds

/-- Numeric value of a digit character. -/
def charDigit (c : Char) : Nat := c.toNat - 48

/-- Decode a decimal string back to the number it renders. -/
def decodeDecimal (s : String) : Nat :=
  undecDigits ((s.data.map charDigit).reverse)

/-! ### Chat relay — `src/app/(tabs)/ai.tsx` -/

/-- Message record, ai.tsx lines 33-38 (`interface Message`). -/
structure Message where
  id : String
  text : String
  isUser : Bool
  timestamp : Nat
deriving Repr, DecidableEq

/-- A `choices[i].message` object of an API response (ai.tsx line 166-167). -/
structure ChoiceMsg where
  content : String
deriving Repr, DecidableEq

/-- A `choices[i]` object of an API response (ai.tsx lines 164-167). -/
structure Choice where
  text : Option String
  message : Option ChoiceMsg
deriving Repr, DecidableEq

/-- The optional fields of a JSON-object API response body that
`fetchAIResponse` probes (ai.tsx lines 158-169); `none` is an absent field. -/
structure ApiObj where
  reply : Option String
  message : Option String
  output : Option String
  choices : Option (List Choice)
  response : Option String
deriving Repr, DecidableEq

/-- A parsed API response body: a JSON object or a bare string
(ai.tsx line 170, `typeof data === 'string'`). -/
inductive ApiData where
  | jstr : String → ApiData
  | jobj : ApiObj → ApiData
deriving Repr, DecidableEq

/-- JavaScript truthiness of an optional string field: present and
non-empty (`undefined` and the empty string are falsy). -/
def truthy : Option String → Bool
  | none => false
  | some s => s ≠ ""

/-- `data.choices && data.choices[0]`: the first choice when the `choices`
field is present and non-empty (an array and an object are always truthy). -/
def choice0 : Option (List Choice) → Option Choice
  | some (c :: _) => some c
  | _ => none

/-- `data.choices && data.choices[0] && data.choices[0].text` as an optional
value: `some` exactly when the whole conjunction is truthy. -/
def choice0Text (cs : Option (List Choice)) : Option String :=
  match (choice0 cs).bind Choice.text with
  | some t => if t ≠ "" then some t else none
  | none => none

/-- Canned reply when no recognized response shape is found (ai.tsx line 174). -/
def msgUnrecognized : String :=
  "I received your message but couldn't process the response format."

/-- Reply extraction from a successful response body, ai.tsx lines 154-175:
probe `reply`, `message`, `output`, `choices[0].text`,
`choices[0].message.content`, `response`, the bare-string body, and otherwise
return the fixed unrecognized-format message. -/
def extractReply : ApiData → String
  | .jstr s => s
  | .jobj o =>
    if truthy o.reply then o.reply.getD ""
    else if truthy o.message then o.message.getD ""
    else if truthy o.output then o.output.getD ""
    else if (choice0Text o.choices).isSome then (choice0Text o.choices).getD ""
    else
      match (choice0 o.choices).bind Choice.message with
      | some m => m.content
      | none =>
        if truthy o.response then o.response.getD ""
        else msgUnrecognized

/-- Canned reply for HTTP 401 (ai.tsx line 144). -/
def msg401 : String :=
  "I'm having trouble authenticating with the AI service. Please check your API configuration."

/-- Canned reply for HTTP 429 (ai.tsx line 146). -/
def msg429 : String :=
  "I'm receiving too many requests right now. Please wait a moment and try again."

/-- Canned reply for HTTP status 500 and above (ai.tsx line 148). -/
def msg5xx : String :=
  "The AI service is currently experiencing issues. Please try again later."

/-- Canned reply for an aborted or timed-out request (ai.tsx line 181). -/
def msgTimeout : String :=
  "The request took too long to complete. Please try again in a moment."

/-- Canned reply for a network failure (ai.tsx line 183). -/
def msgNetwork : String :=
  "I'm having trouble connecting to the network. Please check your internet connection and try again."

/-- Canned reply for an unreachable endpoint (ai.tsx line 185). -/
def msgUnreachable : String :=
  "I couldn't reach the AI service. Please check your API endpoint and try again."

/-- Canned generic catch-all reply (ai.tsx line 187). -/
def msgGeneric : String :=
  "I apologize, but I'm having trouble processing your request right now. Please try again in a moment."

/-- Canned reply of the configuration guard (ai.tsx line 115). -/
def msgNotConfigured : String :=
  "I'm currently not configured properly. Please check the API settings."

/-- The catch-block classification of a thrown error by its `name` and by
substring matching on its `message`, ai.tsx lines 176-189. -/
def classifyCaught (name msg : String) : String :=
  if name == "AbortError" || jsIncludes msg "timeout" || jsIncludes msg "abort" then
    msgTimeout
  else if jsIncludes msg "Network request failed" || jsIncludes msg "fetch" then
    msgNetwork
  else if jsIncludes msg "Failed to fetch" then
    msgUnreachable
  else
    msgGeneric

/-- Outcome of the one awaited HTTP call inside `fetchAIResponse`: a parsed
success body, a non-ok status with the error body text, or a thrown error
carrying its `name` and `message`. -/
inductive HttpOutcome where
  | success : ApiData → HttpOutcome
  | failure : Nat → String → HttpOutcome
  | thrown : String → String → HttpOutcome

/-- The chat endpoint constant, ai.tsx line 86: the string literal
`"process.env.AI_API"`, not a value read from the environment. -/
def AI_API : String := "process.env.AI_API"

/-- Model of `fetchAIResponse` (ai.tsx lines 111-190). The first component is
the HTTP POST that is issued — its URL and the `prompt` field of its JSON
body, `prompt.trim()` (line 129) — and is `none` when the configuration
guard short-circuits and no request is made; the second component is the
returned reply text. A non-ok status other than 401/429/5xx throws inside
the `try` (line 150) and is classified by the same catch block. -/
def fetchAIResponse (prompt : String) (outcome : HttpOutcome) : Option (String × String) × String :=
  if AI_API = "" then
    (none, msgNotConfigured)
  else
    (some (AI_API, jsTrim prompt),
      match outcome with
      | .success d => extractReply d
      | .failure status errorText =>
        if status == 401 then msg401
        else if status == 429 then msg429
        else if 500 ≤ status then msg5xx
        else classifyCaught "Error"
          ("API returned status " ++ toString status ++ ": " ++ errorText)
      | .thrown name msg => classifyCaught name msg)

/-- The reply text `handleSendMessage` awaits from `fetchAIResponse`. -/
def aiReply (prompt : String) (outcome : HttpOutcome) : String :=
  (fetchAIResponse prompt outcome).2

/-- The chat screen state used by the send and clear handlers
(ai.tsx lines 70-79). -/
structure ChatState where
  messages : List Message
  inputText : String
  isLoading : Bool
deriving Repr, DecidableEq

/-- The seeded greeting text (ai.tsx lines 73 and 240). -/
def greetingText (firstName lastName : String) : String :=
  "Hello " ++ firstName ++ " " ++ lastName ++ "! 👋 I'm your AI assistant. How can I help you today?"

/-- The initial transcript: one assistant greeting with id `'1'`
(ai.tsx lines 70-77). -/
def initialMessages (firstName lastName : String) (t : Nat) : List Message :=
  [⟨"1", greetingText firstName lastName, false, t⟩]

/-- Fallback text of the outer catch in `handleSendMessage` (ai.tsx line 222),
used when the thrown error has a falsy `message`. -/
def msgOuterFallback : String :=
  "I'm sorry, something went wrong. Please try again later."

/-- Model of `handleSendMessage` (ai.tsx lines 192-230) as one atomic send.
`tUser` is `Date.now()` at send time, `tResp` is `Date.now()` when the reply
(or outer exception) arrives, `outcome` is the HTTP outcome consumed by
`fetchAIResponse`, and `outerErr` is `some m` when the awaited call itself
rejected with error message `m` (the outer catch, lines 217-226; in this
code `fetchAIResponse` resolves on every path, so `outerErr` covers the
hypothetical rejection path the source still handles). -/
def handleSendMessage (s : ChatState) (tUser tResp : Nat) (outcome : HttpOutcome)
    (outerErr : Option String) : ChatState :=
  if jsTrim s.inputText = "" ∨ s.isLoading = true then s
  else
    let userMsg : Message := ⟨natToDecimal tUser, jsTrim s.inputText, true, tUser⟩
    let respText : String :=
      match outerErr with
      | none => aiReply s.inputText outcome
      | some m => if m = "" then msgOuterFallback else m
    let aiMsg : Message := ⟨natToDecimal (tResp + 1), respText, false, tResp⟩
    { messages := s.messages ++ [userMsg, aiMsg], inputText := "", isLoading := false }

/-- Model of `confirmClearChat` (ai.tsx lines 236-246): reset the transcript
to the single seeded greeting. -/
def confirmClearChat (s : ChatState) (firstName lastName : String) (t : Nat) : ChatState :=
  { s with messages := initialMessages firstName lastName t }

/-- One user interaction with the chat screen: a send (the typed input, the
two `Date.now()` readings, and the HTTP outcome/outer rejection it awaits) or
a confirmed clear (its `new Date()` timestamp). -/
inductive ChatEvent where
  | send : String → Nat → Nat → HttpOutcome → Option String → ChatEvent
  | clear : Nat → ChatEvent

/-- Apply one chat event to the screen state. -/
def chatStep (firstName lastName : String) (s : ChatState) : ChatEvent → ChatState
  | .send input tUser tResp outcome outerErr =>
      handleSendMessage { s with inputText := input } tUser tResp outcome outerErr
  | .clear t => confirmClearChat s firstName lastName t

/-- Run the chat screen from its initial state through a list of events. -/
def chatRun (firstName lastName : String) (t0 : Nat) (events : List ChatEvent) : ChatState :=
  events.foldl (chatStep firstName lastName) ⟨initialMessages firstName lastName t0, "", false⟩

/-- Clock discipline under which send-assigned ids stay unique: each send
happens no earlier than the bound, finishes no earlier than it starts, and
the next send starts at least 2 ms after the previous response (so its id
exceeds the previous response id `tResp + 1`); a confirmed clear reseeds the
transcript, after which any send time of at least 2 ms keeps ids above the
seeded id `1`. -/
def wellSeparated : Nat → List ChatEvent → Bool
  | _, [] => true
  | lb, .send _ tUser tResp _ _ :: rest =>
      decide (lb ≤ tUser ∧ tUser ≤ tResp) && wellSeparated (tResp + 2) rest
  | _, .clear _ :: rest => wellSeparated 2 rest

/-! ### Verify-email screen — `src/unnamed/part_000` -/

/-- The code-input sanitizer, part_000 lines 356-359:
`text.replace(/[^0-9]/g, '').slice(0, 6)`. -/
def sanitizeCode (text : String) : String :=
  String.mk ((text.data.filter Char.isDigit).take 6)

/-- Does a string match the regex `^[0-9]{6}$`? -/
def matchesSixDigits (s : String) : Bool :=
  s.data.length == 6 && s.data.all Char.isDigit

/-- What the verify handler does: show a local alert (title, message) without
any remote call, or invoke `signUp.attemptEmailAddressVerification` with the
given code. -/
inductive VerifyAction where
  | localAlert : String → String → VerifyAction
  | remoteVerify : String → VerifyAction
deriving Repr, DecidableEq

/-- Model of the guard cascade of `handleVerify` (part_000 lines 71-102), up
to the point where the remote verification call is issued. `signUpPresent`
models `signUp` being non-null and `signUpStatus` its `status` field. -/
def handleVerify (isLoaded signUpPresent : Bool) (signUpStatus : String)
    (code : String) : VerifyAction :=
  if isLoaded = false ∨ signUpPresent = false then
    .localAlert "Error" "System not ready. Please try signing up again."
  else if signUpStatus ≠ "missing_requirements" then
    .localAlert "Error" "Cannot verify email at this time. Please try signing up again."
  else if jsTrim code = "" then
    .localAlert "Error" "Please enter the verification code"
  else if code.data.length ≠ 6 then
    .localAlert "Error" "Verification code must be exactly 6 digits"
  else
    .remoteVerify (jsTrim code)

/-- The resend-related screen state (part_000 lines 34-35). The cooldown is
an `Int` so that the floor-at-0 property is a statement, not a typing
artifact. -/
structure ResendState where
  cooldown : Int
  isResending : Bool
deriving Repr, DecidableEq

/-- One tick of the cooldown timer (part_000 lines 55-69): the interval is
armed exactly while `resendCooldown > 0` and then decrements it by 1. -/
def cooldownTick (s : ResendState) : ResendState :=
  if s.cooldown > 0 then { s with cooldown := s.cooldown - 1 } else s

/-- Outcome of the awaited `prepareEmailAddressVerification` call. -/
inductive ResendOutcome where
  | ok : ResendOutcome
  | err : String → ResendOutcome

/-- Model of `handleResendCode` (part_000 lines 174-198): the returned `Bool`
records whether the remote resend call was issued. On success the cooldown is
armed at 30; in every completed call the `finally` clears `isResending`. -/
def handleResendCode (isLoaded signUpPresent : Bool) (signUpStatus : String)
    (outcome : ResendOutcome) (s : ResendState) : ResendState × Bool :=
  if isLoaded = false ∨ signUpPresent = false ∨ s.cooldown > 0 then (s, false)
  else if signUpStatus = "complete" then (s, false)
  else
    match outcome with
    | .ok => ({ cooldown := 30, isResending := false }, true)
    | .err _ => ({ s with isResending := false }, true)

/-- The resend link is disabled while a resend is in flight or the cooldown
is positive (part_000 line 405, `disabled={isResending || resendCooldown > 0}`). -/
def resendDisabled (s : ResendState) : Bool :=
  s.isResending || s.cooldown > 0

/-- A press of the resend link: delivered to `handleResendCode` only when the
link is enabled. -/
def pressResend (isLoaded signUpPresent : Bool) (signUpStatus : String)
    (outcome : ResendOutcome) (s : ResendState) : ResendState × Bool :=
  if resendDisabled s then (s, false)
  else handleResendCode isLoaded signUpPresent signUpStatus outcome s

/-! ### Sign-in screen — `src/unnamed/part_001` -/

/-- What the sign-in submit handler does before/instead of the remote call. -/
inductive SignInAction where
  | noop : SignInAction
  | alertError : String → SignInAction
  | remoteSignIn : String → String → SignInAction
deriving Repr, DecidableEq

/-- Model of the validation cascade of `handleSubmit` (part_001 lines 39-59),
up to the point where `signIn.create` is issued with
`identifier: email.trim()` and the raw password. -/
def signInHandleSubmit (isLoaded setActivePresent : Bool)
    (email password : String) : SignInAction :=
  if isLoaded = false ∨ setActivePresent = false then .noop
  else if email = "" ∨ password = "" then .alertError "Please fill in all fields"
  else if email.data.contains ' ' || password.data.contains ' ' then
    .alertError "Email and password cannot contain spaces"
  else
    .remoteSignIn (jsTrim email) password

/-! ### Profile screen — `src/app/(tabs)/profile.tsx` -/

/-- The observable effects a profile-screen handler can emit.
`providerDeleteAccount` stands for any identity-provider account-deletion
call; it is in the vocabulary precisely so that its absence from a handler
trace is a statement. -/
inductive ProfileEffect where
  | showAlert : String → String → ProfileEffect
  | providerSignOut : ProfileEffect
  | providerDeleteAccount : ProfileEffect
  | closeOverlay : ProfileEffect
deriving Repr, DecidableEq

/-- The effect trace of `confirmDeleteAccount` (profile.tsx lines 80-91):
show the simulated-success alert, close the settings sheet, and — when the
user presses OK — sign out. No identity-provider deletion call appears. -/
def confirmDeleteAccountEffects : List ProfileEffect :=
  [ .showAlert "Account Deletion Initiated"
      "Your account deletion has been done. Any remaining balance of $2,458.75 will be transferred to your registered bank account within 3-5 business days.",
    .closeOverlay,
    .providerSignOut ]

/-! ### Auxiliary definitions used only by the statements and proofs -/

/-- The id column of the transcript. -/
def idsOf (s : ChatState) : List String :=
  s.messages.map Message.id

/-- Transcript-id invariant: the ids are the decimal renderings of a strictly
increasing list of numbers, all below the bound `lb`. -/
def ChatInv (lb : Nat) (s : ChatState) : Prop :=
  ∃ ns : List Nat, idsOf s = ns.map natToDecimal ∧
    ns.Pairwise (fun a b => a < b) ∧ ∀ n ∈ ns, n < lb

/-- A JSON-object response with none of the probed fields present. -/
def emptyApiObj : ApiObj := ⟨none, none, none, none, none⟩

/-- Two sends whose `Date.now()` readings are non-decreasing (10, 10, 11, 12)
but where the second send starts one millisecond after the first response:
the second user id collides with the first assistant id. -/
def collideEvents : List ChatEvent :=
  [ .send "hi" 10 10 (.success (.jstr "ok")) none,
    .send "yo" 11 12 (.success (.jstr "ok")) none ]

/-- A send, a confirmed clear, and another send, with every send starting at
least 2 ms after the previous response: a well-separated event sequence. -/
def separatedEvents : List ChatEvent :=
  [ .send "hi" 10 10 (.success (.jstr "ok")) none,
    .clear 20,
    .send "yo" 13 14 (.success (.jstr "ok")) none ]

/-! ### Decimal rendering lemmas -/

theorem undecDigits_decDigitsF (fuel : Nat) :
    ∀ n, n ≤ fuel → undecDigits (decDigitsF fuel n) = n := by
  induction fuel with
  | zero =>
    intro n hn
    interval_cases n
    simp [decDigitsF, undecDigits]
  | succ fuel ih =>
    intro n hn
    by_cases h0 : n = 0
    · simp [decDigitsF, h0, undecDigits]
    · have hdiv : n / 10 ≤ fuel := by
        have : n / 10 < n := Nat.div_lt_self (Nat.pos_of_ne_zero h0) (by decide)
        omega
      simp only [decDigitsF, if_neg h0, undecDigits]
      rw [ih (n / 10) hdiv]
      omega

theorem decDigitsF_lt_ten (fuel : Nat) :
    ∀ n d, d ∈ decDigitsF fuel n → d < 10 := by
  induction fuel with
  | zero => intro n d hd; simp [decDigitsF] at hd
  | succ fuel ih =>
    intro n d hd
    by_cases h0 : n = 0
    · simp [decDigitsF, h0] at hd
    · simp only [decDigitsF, if_neg h0, List.mem_cons] at hd
      rcases hd with h | h
      · subst h; exact Nat.mod_lt _ (by decide)
      · exact ih _ _ h

theorem charDigit_digitChar : ∀ d, d < 10 → charDigit (digitChar d) = d := by decide

theorem decodeDecimal_natToDecimal (n : Nat) : decodeDecimal (natToDecimal n) = n := by
  by_cases h0 : n = 0
  · subst h0; decide
  · have hmap :
        (((decDigits n).map digitChar).map charDigit) = decDigits n := by
      rw [List.map_map]
      have : ∀ d ∈ decDigits n, (charDigit ∘ digitChar) d = d := by
        intro d hd
        exact charDigit_digitChar d (decDigitsF_lt_ten n n d hd)
      calc ((decDigits n).map (charDigit ∘ digitChar)) = (decDigits n).map id := by
            exact List.map_congr_left this
        _ = decDigits n := List.map_id _
    simp only [natToDecimal, if_neg h0, decodeDecimal]
    rw [List.map_reverse, List.reverse_reverse, hmap]
    exact undecDigits_decDigitsF n n (Nat.le_refl n)

theorem natToDecimal_injective : Function.Injective natToDecimal := by
  intro m n h
  have := congrArg decodeDecimal h
  rwa [decodeDecimal_natToDecimal, decodeDecimal_natToDecimal] at this

theorem natToDecimal_one : natToDecimal 1 = "1" := by decide

/-! ### Claim C6 — clear chat -/

/-- Claim C6: confirming the clear-chat action resets the transcript to
exactly one record — an assistant-authored greeting — with no other records
remaining, regardless of the transcript's prior contents. -/
theorem clearChat_single_greeting (s : ChatState) (firstName lastName : String) (t : Nat) :
    (confirmClearChat s firstName lastName t).messages.length = 1 ∧
    (confirmClearChat s firstName lastName t).messages.map Message.isUser = [false] ∧
    (confirmClearChat s firstName lastName t).messages.map Message.text =
      [greetingText firstName lastName] :=
  ⟨rfl, rfl, rfl⟩

/-! ### Claim C9 — delete account is a stub -/

/-- Claim C9: confirming the delete-account action performs no deletion
against the identity provider — its effect trace contains no
account-deletion call; the only provider call in it is the sign-out issued
from the success alert, alongside showing that alert and closing the
overlay. -/
theorem deleteAccount_no_provider_deletion :
    ProfileEffect.providerDeleteAccount ∉ confirmDeleteAccountEffects ∧
    ProfileEffect.providerSignOut ∈ confirmDeleteAccountEffects := by
  decide

/-! ### Claim C10 — the endpoint constant is a literal -/

/-- Claim C10: the chat endpoint constant `AI_API` is the non-empty string
literal `"process.env.AI_API"` (not a value read from the environment), so
the configuration-guard branch is unreachable and every call of
`fetchAIResponse` issues an HTTP request to that literal URL. -/
theorem ai_api_literal_always_requested :
    AI_API = "process.env.AI_API" ∧ AI_API ≠ "" ∧
    ∀ (prompt : String) (outcome : HttpOutcome),
      (fetchAIResponse prompt outcome).1 = some (AI_API, jsTrim prompt) := by
  refine ⟨rfl, by decide, ?_⟩
  intro prompt outcome
  unfold fetchAIResponse
  rw [if_neg (by decide : ¬ (AI_API = ""))]

/-! ### Claim C8 — sign-in rejects an email with a space -/

/-- Claim C8: a sign-in submission whose email contains a space and whose
password is non-empty is rejected by the validation cascade with the
"cannot contain spaces" message, and no remote `signIn.create` call is
issued. -/
theorem signIn_space_rejected (email password : String)
    (hsp : email.data.contains ' ' = true) (hpw : password ≠ "") :
    signInHandleSubmit true true email password =
      .alertError "Email and password cannot contain spaces" := by
  have hne : email ≠ "" := by
    intro h
    rw [h] at hsp
    exact absurd hsp (by decide)
  unfold signInHandleSubmit
  rw [if_neg (by simp), if_neg (by simp [hne, hpw]), if_pos (by simp only [hsp, Bool.true_or])]

/-- Witness for C8 at the spec's example input. -/
theorem signIn_space_rejected_witness :
    ("a b@x.com".data.contains ' ' = true) ∧ ("hunter2" ≠ "") ∧
    signInHandleSubmit true true "a b@x.com" "hunter2" =
      .alertError "Email and password cannot contain spaces" :=
  ⟨by decide, by decide,
    signIn_space_rejected "a b@x.com" "hunter2" (by decide) (by decide)⟩

/-! ### Claim C5 — failure-path replies are a fixed verbatim table -/

/-- Claim C5: the relay's failure-path replies equal the canned reference
table verbatim — status 401, 429 and every status at least 500 map to their
canned messages, and a thrown error classified as abort/timeout (by its
`name` or by substring matching on its `message`) maps to the canned timeout
message. -/
theorem failure_replies_canned :
    (∀ (p t : String), aiReply p (.failure 401 t) = msg401)
  ∧ (∀ (p t : String), aiReply p (.failure 429 t) = msg429)
  ∧ (∀ (p t : String) (status : Nat), 500 ≤ status → aiReply p (.failure status t) = msg5xx)
  ∧ (∀ (p n m : String),
      n = "AbortError" ∨ jsIncludes m "timeout" = true ∨ jsIncludes m "abort" = true →
      aiReply p (.thrown n m) = msgTimeout) := by
  refine ⟨fun p t => rfl, fun p t => rfl, ?_, ?_⟩
  · intro p t status hs
    unfold aiReply fetchAIResponse
    rw [if_neg (by decide : ¬ (AI_API = ""))]
    show (if (status == 401) = true then msg401
      else if (status == 429) = true then msg429
      else if 500 ≤ status then msg5xx
      else classifyCaught "Error" ("API returned status " ++ toString status ++ ": " ++ t)) = msg5xx
    rw [if_neg (by simp; omega), if_neg (by simp; omega), if_pos hs]
  · intro p n m h
    unfold aiReply fetchAIResponse
    rw [if_neg (by decide : ¬ (AI_API = ""))]
    show classifyCaught n m = msgTimeout
    unfold classifyCaught
    rw [if_pos]
    rcases h with h | h | h <;> simp [h]

/-- Witness for C5: a simulated 503 and a simulated abort. -/
theorem failure_replies_canned_witness :
    aiReply "p" (.failure 503 "oops") = msg5xx ∧
    aiReply "p" (.thrown "AbortError" "x") = msgTimeout :=
  ⟨failure_replies_canned.2.2.1 "p" "oops" 503 (by decide),
   failure_replies_canned.2.2.2 "p" "AbortError" "x" (Or.inl rfl)⟩

/-! ### Claim C1 — every send appends exactly a user and an assistant record -/

/-- Claim C1: for every send with non-whitespace input while no send is in
flight, the transcript grows by exactly 2 — a user-authored record holding
the trimmed input is appended first, then exactly one assistant-authored
record — on every path (`outcome` ranges over HTTP success, mapped failure
status and thrown/aborted error, and `outerErr` over the outer-catch
rejection path). -/
theorem send_appends_user_then_assistant (s : ChatState) (tUser tResp : Nat)
    (outcome : HttpOutcome) (outerErr : Option String)
    (hin : jsTrim s.inputText ≠ "") (hload : s.isLoading = false) :
    ∃ replyText,
      (handleSendMessage s tUser tResp outcome outerErr).messages =
        s.messages ++
          [⟨natToDecimal tUser, jsTrim s.inputText, true, tUser⟩,
           ⟨natToDecimal (tResp + 1), replyText, false, tResp⟩] ∧
      (handleSendMessage s tUser tResp outcome outerErr).messages.length =
        s.messages.length + 2 := by
  have hg : ¬ (jsTrim s.inputText = "" ∨ s.isLoading = true) := by
    rintro (hc | hc)
    · exact hin hc
    · rw [hload] at hc; exact Bool.false_ne_true hc
  simp only [handleSendMessage, if_neg hg]
  exact ⟨_, rfl, by simp⟩

/-- Witness for C1 at a concrete send. -/
theorem send_appends_user_then_assistant_witness :
    jsTrim " hi " ≠ "" ∧
    (∃ replyText,
      (handleSendMessage ⟨[], " hi ", false⟩ 10 10 (.success (.jstr "ok")) none).messages =
        ([] : List Message) ++
          [⟨natToDecimal 10, jsTrim " hi ", true, 10⟩,
           ⟨natToDecimal (10 + 1), replyText, false, 10⟩] ∧
      (handleSendMessage ⟨[], " hi ", false⟩ 10 10 (.success (.jstr "ok")) none).messages.length =
        ([] : List Message).length + 2) :=
  ⟨by decide,
   send_appends_user_then_assistant ⟨[], " hi ", false⟩ 10 10 (.success (.jstr "ok")) none
     (by decide) rfl⟩

/-! ### Claim C2 — reply extraction priority and its fallback -/

/-- Counterexample to C2 as stated: on a successful response whose body is a
JSON object with none of the recognized fields, the extracted reply is the
fixed canned unrecognized-format message, not a literal echo of the input
(here the input "hello"). -/
theorem extract_fallback_not_input_echo :
    aiReply "hello" (.success (.jobj emptyApiObj)) = msgUnrecognized ∧
    aiReply "hello" (.success (.jobj emptyApiObj)) ≠ "hello" := by
  decide

/-- Claim C2 as amended: on a successful HTTP response the relay extracts
the reply by probing the fixed field list in priority order — `reply`,
`message`, `output`, `choices[0].text`, `choices[0].message.content`,
`response`, then a bare string body — and when no recognized shape is found
it falls back to the fixed canned unrecognized-format message (not an echo
of the input). A string field is recognized when present and non-empty
(JavaScript truthiness); the `choices[0].message` step is recognized by the
presence of the message object. -/
theorem extract_priority_and_canned_fallback :
    (∀ (o : ApiObj) (v : String), o.reply = some v → v ≠ "" →
        extractReply (.jobj o) = v)
  ∧ (∀ (o : ApiObj) (v : String), truthy o.reply = false →
        o.message = some v → v ≠ "" → extractReply (.jobj o) = v)
  ∧ (∀ (o : ApiObj) (v : String), truthy o.reply = false → truthy o.message = false →
        o.output = some v → v ≠ "" → extractReply (.jobj o) = v)
  ∧ (∀ (o : ApiObj) (c : Choice) (rest : List Choice) (v : String),
        truthy o.reply = false → truthy o.message = false → truthy o.output = false →
        o.choices = some (c :: rest) → c.text = some v → v ≠ "" →
        extractReply (.jobj o) = v)
  ∧ (∀ (o : ApiObj) (c : Choice) (rest : List Choice) (m : ChoiceMsg),
        truthy o.reply = false → truthy o.message = false → truthy o.output = false →
        choice0Text o.choices = none → o.choices = some (c :: rest) → c.message = some m →
        extractReply (.jobj o) = m.content)
  ∧ (∀ (o : ApiObj) (v : String),
        truthy o.reply = false → truthy o.message = false → truthy o.output = false →
        choice0Text o.choices = none → (choice0 o.choices).bind Choice.message = none →
        o.response = some v → v ≠ "" → extractReply (.jobj o) = v)
  ∧ (∀ s : String, extractReply (.jstr s) = s)
  ∧ (∀ (o : ApiObj),
        truthy o.reply = false → truthy o.message = false → truthy o.output = false →
        choice0Text o.choices = none → (choice0 o.choices).bind Choice.message = none →
        truthy o.response = false →
        extractReply (.jobj o) = msgUnrecognized) := by
  refine ⟨?_, ?_, ?_, ?_, ?_, ?_, fun s => rfl, ?_⟩
  · intro o v hv hne
    have ht : truthy o.reply = true := by rw [hv]; simp [truthy, hne]
    have he : extractReply (.jobj o) = o.reply.getD "" := by simp [extractReply, ht]
    rw [he, hv]; rfl
  · intro o v h1 hv hne
    have ht : truthy o.message = true := by rw [hv]; simp [truthy, hne]
    have he : extractReply (.jobj o) = o.message.getD "" := by
      simp [extractReply, h1, ht]
    rw [he, hv]; rfl
  · intro o v h1 h2 hv hne
    have ht : truthy o.output = true := by rw [hv]; simp [truthy, hne]
    have he : extractReply (.jobj o) = o.output.getD "" := by
      simp [extractReply, h1, h2, ht]
    rw [he, hv]; rfl
  · intro o c rest v h1 h2 h3 hcs htx hne
    have hct : choice0Text o.choices = some v := by
      simp [choice0Text, choice0, hcs, htx, hne]
    simp [extractReply, h1, h2, h3, hct]
  · intro o c rest m h1 h2 h3 hct hcs hmsg
    have hbind : (choice0 o.choices).bind Choice.message = some m := by
      simp [choice0, hcs, hmsg]
    simp [extractReply, h1, h2, h3, hct, hbind]
  · intro o v h1 h2 h3 hct hbind hv hne
    have ht : truthy o.response = true := by rw [hv]; simp [truthy, hne]
    have he : extractReply (.jobj o) = o.response.getD "" := by
      simp [extractReply, h1, h2, h3, hct, hbind, ht]
    rw [he, hv]; rfl
  · intro o h1 h2 h3 hct hbind h6
    simp [extractReply, h1, h2, h3, hct, hbind, h6]

/-- Witness for C2 (amended): the first probe and the fallback at concrete
bodies. -/
theorem extract_priority_and_canned_fallback_witness :
    extractReply (.jobj ⟨some "hi", some "skip", none, none, none⟩) = "hi" ∧
    extractReply (.jobj emptyApiObj) = msgUnrecognized :=
  ⟨extract_priority_and_canned_fallback.1 ⟨some "hi", some "skip", none, none, none⟩ "hi"
      rfl (by decide),
   extract_priority_and_canned_fallback.2.2.2.2.2.2.2 emptyApiObj
      rfl rfl rfl rfl rfl rfl⟩

/-! ### Claim C3 — non-6-digit codes never reach the remote verifier -/

/-- Claim C3: every code the screen can hold is a value of the keystroke
sanitizer (part_000 line 357), and for every such code not matching
`^[0-9]{6}$` the verify handler fails locally with a user-visible alert and
never invokes `attemptEmailAddressVerification`, whatever the load/session
state. -/
theorem verify_nonSixDigit_local (text : String) (il sp : Bool) (st : String)
    (h : matchesSixDigits (sanitizeCode text) = false) :
    ∃ title msg, handleVerify il sp st (sanitizeCode text) = .localAlert title msg := by
  have hdig : ∀ c ∈ (sanitizeCode text).data, c.isDigit = true := by
    intro c hc
    have hc' : c ∈ (text.data.filter Char.isDigit).take 6 := hc
    exact List.of_mem_filter (List.mem_of_mem_take hc')
  have hlen : (sanitizeCode text).data.length ≠ 6 := by
    intro hl
    have hall : (sanitizeCode text).data.all Char.isDigit = true :=
      List.all_eq_true.mpr hdig
    rw [matchesSixDigits, hl, hall] at h
    simp at h
  unfold handleVerify
  split_ifs with h1 h2 h3
  all_goals exact ⟨_, _, rfl⟩

/-- Witness for C3: a 5-character input (sanitizes to "1234", not 6 digits). -/
theorem verify_nonSixDigit_local_witness :
    matchesSixDigits (sanitizeCode "12a34") = false ∧
    ∃ title msg,
      handleVerify true true "missing_requirements" (sanitizeCode "12a34") =
        .localAlert title msg :=
  ⟨by decide,
   verify_nonSixDigit_local "12a34" true true "missing_requirements" (by decide)⟩

/-! ### Claim C4 — resend cooldown protocol -/

theorem cooldownTick_iterate (b : Bool) (k : Nat) :
    ∀ c : Int, 0 ≤ c →
      cooldownTick^[k] ⟨c, b⟩ = ⟨max (c - (k : Int)) 0, b⟩ := by
  induction k with
  | zero =>
    intro c hc
    simp only [Function.iterate_zero, id_eq]
    have : max (c - ((0 : Nat) : Int)) 0 = c := by push_cast; omega
    rw [this]
  | succ k ih =>
    intro c hc
    rw [Function.iterate_succ_apply]
    by_cases h : c > 0
    · have h1 : cooldownTick ⟨c, b⟩ = ⟨c - 1, b⟩ := by simp [cooldownTick, h]
      rw [h1, ih (c - 1) (by omega)]
      have : max (c - 1 - (k : Int)) 0 = max (c - ((k + 1 : Nat) : Int)) 0 := by
        push_cast; omega
      rw [this]
    · have h0 : c = 0 := by omega
      subst h0
      have h1 : cooldownTick ⟨0, b⟩ = ⟨0, b⟩ := by simp [cooldownTick]
      rw [h1, ih 0 (by omega)]
      have : max ((0 : Int) - (k : Int)) 0 = max ((0 : Int) - ((k + 1 : Nat) : Int)) 0 := by
        push_cast; omega
      rw [this]

/-- Claim C4: a resend press is rejected with no remote call whenever the
cooldown is positive or a resend is in flight; a press that goes through on
a successful outcome arms the cooldown at exactly 30; each one-second tick
decrements a positive cooldown by exactly 1 and never drives it below 0;
and along the trajectory from 30 the resend link is re-enabled exactly when
the counter reaches 0 (that is, exactly from the 30th tick on). -/
theorem resend_cooldown_protocol :
    (∀ (il sp : Bool) (st : String) (oc : ResendOutcome) (s : ResendState),
        s.cooldown > 0 ∨ s.isResending = true →
        pressResend il sp st oc s = (s, false))
  ∧ (∀ (st : String) (s : ResendState), st ≠ "complete" → resendDisabled s = false →
        pressResend true true st .ok s = (⟨30, false⟩, true))
  ∧ (∀ s : ResendState, s.cooldown > 0 → (cooldownTick s).cooldown = s.cooldown - 1)
  ∧ (∀ s : ResendState, 0 ≤ s.cooldown → 0 ≤ (cooldownTick s).cooldown)
  ∧ (∀ k : Nat, (cooldownTick^[k] ⟨30, false⟩).cooldown = max (30 - (k : Int)) 0)
  ∧ (∀ k : Nat, resendDisabled (cooldownTick^[k] ⟨30, false⟩) = false ↔ 30 ≤ k) := by
  refine ⟨?_, ?_, ?_, ?_, ?_, ?_⟩
  · intro il sp st oc s h
    have hd : resendDisabled s = true := by
      rcases h with h | h <;> simp [resendDisabled, h]
    simp [pressResend, hd]
  · intro st s hst hd
    have hr : s.isResending = false ∧ ¬ s.cooldown > 0 := by
      simpa [resendDisabled] using hd
    simp [pressResend, hd, handleResendCode, hst, hr.2]
  · intro s h
    simp [cooldownTick, h]
  · intro s h
    by_cases hc : s.cooldown > 0 <;> simp [cooldownTick, hc] <;> omega
  · intro k
    rw [cooldownTick_iterate false k 30 (by omega)]
  · intro k
    rw [cooldownTick_iterate false k 30 (by omega)]
    simp only [resendDisabled, Bool.false_or, decide_eq_false_iff_not, not_lt]
    omega

/-- Witness for C4: a press during cooldown is rejected, a press at cooldown
0 arms 30. -/
theorem resend_cooldown_protocol_witness :
    pressResend true true "missing_requirements" .ok ⟨5, false⟩ = (⟨5, false⟩, false) ∧
    pressResend true true "missing_requirements" .ok ⟨0, false⟩ = (⟨30, false⟩, true) :=
  ⟨resend_cooldown_protocol.1 true true "missing_requirements" .ok ⟨5, false⟩
      (Or.inl (by decide)),
   resend_cooldown_protocol.2.1 "missing_requirements" ⟨0, false⟩ (by decide) (by decide)⟩

/-! ### Claim C7 — uniqueness of transcript ids -/

/-- Counterexample to C7 as stated: with the non-decreasing `Date.now()`
readings 10, 10, 11, 12 across two sends (the second send pressed one
millisecond after the first response), the second user id `'11'` collides
with the first assistant id `'11'`, so a reachable transcript has two
records sharing an id. -/
theorem chat_ids_collide :
    ¬ (((chatRun "Ada" "Lovelace" 0 collideEvents).messages.map Message.id).Nodup) := by
  decide

theorem chatInv_clear (firstName lastName : String) (s : ChatState) (t : Nat) :
    ChatInv 2 (confirmClearChat s firstName lastName t) := by
  refine ⟨[1], ?_, by simp, ?_⟩
  · simp [idsOf, confirmClearChat, initialMessages, natToDecimal_one]
  · intro n hn
    simp at hn
    omega

theorem chatFold_inv (firstName lastName : String) :
    ∀ (events : List ChatEvent) (lb : Nat) (s : ChatState),
      ChatInv lb s → wellSeparated lb events = true →
      ∃ lb', ChatInv lb' (events.foldl (chatStep firstName lastName) s) := by
  intro events
  induction events with
  | nil => intro lb s hinv _; exact ⟨lb, hinv⟩
  | cons e rest ih =>
    intro lb s hinv hws
    cases e with
    | clear t =>
      simp only [List.foldl_cons]
      exact ih 2 _ (chatInv_clear firstName lastName s t) hws
    | send input tU tR oc oe =>
      simp only [List.foldl_cons]
      have hws' : (decide (lb ≤ tU ∧ tU ≤ tR) && wellSeparated (tR + 2) rest) = true := hws
      rw [Bool.and_eq_true, decide_eq_true_eq] at hws'
      obtain ⟨⟨hlb, htr⟩, hwsrest⟩ := hws'
      refine ih (tR + 2) _ ?_ hwsrest
      obtain ⟨ns, hmap, hpw, hbound⟩ := hinv
      by_cases hguard : jsTrim input = "" ∨ s.isLoading = true
      · refine ⟨ns, ?_, hpw, ?_⟩
        · simpa [chatStep, handleSendMessage, hguard, idsOf] using hmap
        · intro n hn
          have := hbound n hn
          omega
      · refine ⟨ns ++ [tU, tR + 1], ?_, ?_, ?_⟩
        · simp only [chatStep, handleSendMessage, if_neg hguard, idsOf,
            List.map_append, List.map_cons, List.map_nil]
          rw [show s.messages.map Message.id = ns.map natToDecimal from hmap]
        · rw [List.pairwise_append]
          refine ⟨hpw, by simp; omega, ?_⟩
          intro a ha b hb
          have := hbound a ha
          simp at hb
          rcases hb with rfl | rfl <;> omega
        · intro n hn
          simp only [List.mem_append, List.mem_cons, List.not_mem_nil, or_false] at hn
          rcases hn with h | h | h
          · have := hbound n h; omega
          · subst h; omega
          · subst h; omega

/-- Claim C7 as amended: transcript ids are pairwise distinct for every event
sequence whose sends are separated by the clock — each send starts no
earlier than 2 ms into the epoch and more than 1 ms after the previous
response reading, and responses do not precede their sends. (As stated the
claim is false: `chat_ids_collide` exhibits a reachable duplicate.) -/
theorem chat_ids_unique (firstName lastName : String) (t0 : Nat) (events : List ChatEvent)
    (h : wellSeparated 2 events = true) :
    ((chatRun firstName lastName t0 events).messages.map Message.id).Nodup := by
  have hinit : ChatInv 2 (⟨initialMessages firstName lastName t0, "", false⟩ : ChatState) := by
    refine ⟨[1], ?_, by simp, ?_⟩
    · simp [idsOf, initialMessages, natToDecimal_one]
    · intro n hn
      simp at hn
      omega
  obtain ⟨lb', ns, hmap, hpw, _⟩ := chatFold_inv firstName lastName events 2 _ hinit h
  have hids : (chatRun firstName lastName t0 events).messages.map Message.id =
      ns.map natToDecimal := hmap
  rw [hids]
  exact hpw.map natToDecimal
    fun a b hlt heq => Nat.ne_of_lt hlt (natToDecimal_injective heq)

/-- Witness for C7 (amended) on a concrete well-separated event sequence. -/
theorem chat_ids_unique_witness :
    wellSeparated 2 separatedEvents = true ∧
    ((chatRun "Ada" "Lovelace" 0 separatedEvents).messages.map Message.id).Nodup :=
  ⟨by decide, chat_ids_unique "Ada" "Lovelace" 0 separatedEvents (by decide)⟩

end FimPay
